import Mathlib

/-!
Verification of the sudachen/logger repository: a severity-routed
multi-sink logging facade with an asynchronous remote (sentry) delivery
path.  The definitions below are a shallow embedding of the Go source:

* `Severity`, severity tags and `tagOf` embed the `severity` enumeration
  and tag constants of logger.go.
* `GoVal`, `goSprint`, `goSprintln`, `goSprintf` embed the fmt-package
  argument formatting used by the convenience wrappers (`goSprintf`
  covers the verbs `%d`, `%s` and `%%`).
* `Writer` and `makeLogWriters` embed the writer list built by the
  `makeLog` closure inside `Init`.
* `snioWriteActions`, `writerWrite`, `multiWriterWrite` and
  `outputLockHeldActions` embed, respectively, the synchronous
  `snio.Write` of logger.go, a single writer step of `io.MultiWriter`,
  the `io.MultiWriter.Write` loop, and the work `Logger.output` performs
  while holding `logLock`.
* `TrackerState`, `snioWriteInternal`, `sentryGoroutine`,
  `deliveryFinish`, `trackerStep`, `trackerRun` embed the `package
  internal` delivery tracker (`wg sync.WaitGroup`, `connected`,
  `snio.Write` spawning one goroutine per delivery).
* `Closer`, `Router`, `closeLoop`, `routerClose` embed `Logger.Close`.
* `FEv`, `outputEv`, `fatalGo` and friends embed the `Fatal*` bodies.
* `DLogger`, `GState`, `initCall`, `runInits` embed `Init`'s
  check-and-set on `defaultLogger`.
* `rinfof` embeds `Rinfof` of the sudachen variant file.
-/

namespace LoggerModel

/-- Severity levels, from `type severity int` with `sInfo`..`sFatal`. -/
inductive Severity
  | sInfo
  | sWarning
  | sError
  | sFatal
deriving DecidableEq, Repr

/-- Tag for Info, the constant `tagInfo` of logger.go. -/
def tagInfo : String := "INFO : "

/-- Tag for Warning, the constant `tagWarning` of logger.go. -/
def tagWarning : String := "WARN : "

/-- Tag for Error, the constant `tagError` of logger.go. -/
def tagError : String := "ERROR: "

/-- Tag for Fatal, the constant `tagFatal` of logger.go. -/
def tagFatal : String := "FATAL: "

/-- Severity-to-tag map, from the `switch level` in `makeLog`. -/
def tagOf : Severity → String
  | .sInfo => tagInfo
  | .sWarning => tagWarning
  | .sError => tagError
  | .sFatal => tagFatal

/-- A value passed through `...interface\x7b\x7d` to the fmt package;
the repository only ever formats strings and integers. -/
inductive GoVal
  | vint (n : Int)
  | vstr (s : String)
deriving DecidableEq, Repr

/-- Default formatting of one operand, as the fmt package prints it. -/
def toGoString : GoVal → String
  | .vint n => toString n
  | .vstr s => s

/-- Whether fmt.Sprint inserts a space between two adjacent operands:
it does so exactly when neither operand is a string. -/
def sprintSpace : GoVal → GoVal → String
  | .vstr _, _ => ""
  | _, .vstr _ => ""
  | _, _ => " "

/-- fmt.Sprint: operands concatenated, spaces added between operands
when neither is a string. -/
def goSprint : List GoVal → String
  | [] => ""
  | [v] => toGoString v
  | v :: w :: rest => toGoString v ++ sprintSpace v w ++ goSprint (w :: rest)

/-- fmt.Sprintln: operands separated by spaces, newline appended. -/
def goSprintln (vs : List GoVal) : String :=
  String.intercalate " " (vs.map toGoString) ++ "\n"

/-- Character-level worker for `goSprintf`, consuming the format and
the operand list left to right. -/
def sprintfAux : List Char → List GoVal → List Char
  | [], _ => []
  | '%' :: '%' :: rest, vs => '%' :: sprintfAux rest vs
  | '%' :: 'd' :: rest, v :: vs => (toGoString v).data ++ sprintfAux rest vs
  | '%' :: 's' :: rest, v :: vs => (toGoString v).data ++ sprintfAux rest vs
  | c :: rest, vs => c :: sprintfAux rest vs

/-- fmt.Sprintf restricted to the verbs `%d`, `%s` and the escape `%%`,
which covers every format the repository can be exercised with here. -/
def goSprintf (format : String) (vs : List GoVal) : String :=
  String.mk (sprintfAux format.data vs)

/-! ## The remote delivery tracker (`package internal`)

`var connected = false`, `var wg sync.WaitGroup`; `snio.Write` does
`wg.Add(1)` and spawns a goroutine whose body is
`sentry.WithScope(capture); sentry.Flush(flashTimeout); wg.Done()`.
-/

/-- State of the internal delivery tracker: the `connected` flag and the
wait-group counter.  The counter is an integer so that a lost or doubled
decrement would be visible as a nonzero final value. -/
structure TrackerState where
  connected : Bool
  counter : Int
deriving DecidableEq, Repr

/-- Result of one `snio.Write` call of `package internal`: the updated
tracker state, the payloads of the goroutines it spawned, and the
`(n, err)` pair it returns (`err = none` embeds `err = nil`). -/
structure WriteResult where
  state : TrackerState
  spawned : List String
  n : Nat
  err : Option String
deriving DecidableEq, Repr

/-- `snio.Write` of `package internal`: if `connected`, `wg.Add(1)` and
spawn one goroutine delivering `p`; in every case return `0, nil`. -/
def snioWriteInternal (s : TrackerState) (p : String) : WriteResult :=
  if s.connected then
    ⟨{ s with counter := s.counter + 1 }, [p], 0, none⟩
  else
    ⟨s, [], 0, none⟩

/-- One step of the spawned goroutine body. -/
inductive RAct
  | capture (ok : Bool)
  | flush
  | fin
deriving DecidableEq, Repr

/-- Body of the goroutine spawned by the internal `snio.Write`, with
`ok` the outcome of the sentry capture (the sentry client swallows
delivery failures, so the outcome does not change the control flow):
capture, flush, then `wg.Done()`. -/
def sentryGoroutine (ok : Bool) : List RAct :=
  [.capture ok, .flush, .fin]

/-- Effect of a finished delivery goroutine on the tracker: one
`wg.Done()`, whatever the capture outcome was. -/
def deliveryFinish (s : TrackerState) (_ok : Bool) : TrackerState :=
  { s with counter := s.counter - 1 }

/-- An event of the tracker history: a remote `Write` call, or the
completion of one previously spawned delivery goroutine. -/
inductive TEv
  | write (p : String)
  | finish (ok : Bool)
deriving DecidableEq, Repr

/-- Tracker transition on one event. -/
def trackerStep (s : TrackerState) : TEv → TrackerState
  | .write p => (snioWriteInternal s p).state
  | .finish ok => deliveryFinish s ok

/-- Tracker state after a history of events. -/
def trackerRun (s : TrackerState) (es : List TEv) : TrackerState :=
  es.foldl trackerStep s

/-- Number of `write` events in a history. -/
def writeCount (es : List TEv) : Nat :=
  (es.filter fun e => match e with | .write _ => true | _ => false).length

/-- Number of delivery completions in a history. -/
def finishCount (es : List TEv) : Nat :=
  (es.filter fun e => match e with | .finish _ => true | _ => false).length

/-! ## The synchronous sentry sink and `Logger.output` (logger.go)

`makeLog` inside `Init` builds, per severity, the writer list
`[logFile?] ++ [stdout or stderr when verbose] ++ [sentry sink]` and
wraps it in `io.MultiWriter`.  `Logger.output` takes `logLock` and calls
`log.Logger.Output`, whose write goes through that `io.MultiWriter`;
the sentry sink `snio.Write` of logger.go, reached inside that write,
captures synchronously when a client is connected.
-/

/-- A destination reachable from a `Logger`'s per-severity writer list. -/
inductive Writer
  | logFile
  | stdout
  | stderr
  | sentrySink (lvl : Severity)
deriving DecidableEq, Repr

/-- The writer list `a` built by `makeLog` in `Init` for one severity:
`logFile` first when non-nil, then the verbose console stream (`stdout`
for Info/Warning, `stderr` for Error/Fatal), then the extra writers `w`,
which `Init` always instantiates as the severity's sentry sink. -/
def makeLogWriters (verbose : Bool) (hasLogFile : Bool) (level : Severity) : List Writer :=
  let a : List Writer := if hasLogFile then [.logFile] else []
  let v : Writer :=
    match level with
    | .sInfo => .stdout
    | .sWarning => .stdout
    | .sError => .stderr
    | .sFatal => .stderr
  let a := if verbose then a ++ [v] else a
  a ++ [.sentrySink level]

/-- An action performed during a `Logger.output` call, all of them while
`logLock` is held. -/
inductive OAct
  | localWrite (dest : Writer) (record : String)
  | remoteDeliver (lvl : Severity)
  | remoteFlush
deriving DecidableEq, Repr

/-- Error value of a Go writer in this model. -/
inductive GoErr
  | shortWrite
deriving DecidableEq, Repr

/-- Actions of `snio.Write` of logger.go: when a sentry client is
connected it calls `sentryOutput` in the caller, which captures the
message and, at fatal level, also flushes with the bounded timeout;
otherwise it does nothing. -/
def snioWriteActions (clientConnected : Bool) (lvl : Severity) : List OAct :=
  if clientConnected then
    .remoteDeliver lvl :: (if lvl = .sFatal then [.remoteFlush] else [])
  else
    []

/-- One writer step inside `io.MultiWriter.Write`: the sentry sink runs
`snio.Write` of logger.go and reports `(0, nil)`; every other
destination accepts the whole record. -/
def writerWrite (clientConnected : Bool) (w : Writer) (record : String) :
    List OAct × Nat × Option GoErr :=
  match w with
  | .sentrySink lvl => (snioWriteActions clientConnected lvl, 0, none)
  | d => ([.localWrite d record], record.length, none)

/-- The `io.MultiWriter.Write` loop: write to each destination in
order; stop with the writer's error, or with `ErrShortWrite` when a
writer reports fewer bytes than the record length. -/
def multiWriterWrite (clientConnected : Bool) :
    List Writer → String → List OAct × Nat × Option GoErr
  | [], record => ([], record.length, none)
  | w :: ws, record =>
    let r := writerWrite clientConnected w record
    match r.2.2 with
    | some e => (r.1, r.2.1, some e)
    | none =>
      if r.2.1 = record.length then
        let rest := multiWriterWrite clientConnected ws record
        (r.1 ++ rest.1, rest.2.1, rest.2.2)
      else
        (r.1, r.2.1, some .shortWrite)

/-- The actions `Logger.output` performs while holding `logLock` for a
severity-`s` call with text `txt`: one `log.Logger.Output` whose record
is the severity tag, the date/time/source header, then the text, fanned
out through the severity's `io.MultiWriter`. -/
def outputLockHeldActions (clientConnected verbose hasLogFile : Bool)
    (s : Severity) (header txt : String) : List OAct :=
  (multiWriterWrite clientConnected (makeLogWriters verbose hasLogFile s)
    (tagOf s ++ header ++ txt)).1

/-! ## `Logger.Close` (logger.go)

`Close` takes `logLock`, returns at once when `l.initialized` is false,
and otherwise loops over `l.closers` calling `c.Close()` on each one; a
non-nil error is printed to stderr and the loop continues.  Nothing in
the `Logger` is mutated.
-/

/-- A registered closer: its position in the registry and the error its
`Close` returns (`none` embeds a nil error). -/
structure Closer where
  id : Nat
  closeErr : Option String
deriving DecidableEq, Repr

/-- The `Logger` state that `Close` reads: the `initialized` flag and
the closer registry, in registration order. -/
structure Router where
  initialized : Bool
  closers : List Closer
deriving DecidableEq, Repr

/-- Diagnostic printed to stderr when a closer fails. -/
def failedCloseMsg (i : Nat) (e : String) : String :=
  "Failed to close log " ++ toString i ++ ": " ++ e ++ "\n"

/-- The `for _, c := range l.closers` loop of `Close`: each iteration
calls the closer and, on error, prints to stderr and continues.  The
result is the sequence of close calls made and the stderr lines. -/
def closeLoop : List Closer → List Nat × List String
  | [] => ([], [])
  | c :: cs =>
    let rest := closeLoop cs
    (c.id :: rest.1,
      match c.closeErr with
      | some e => failedCloseMsg c.id e :: rest.2
      | none => rest.2)

/-- `Logger.Close`: no-op when never initialized; otherwise run the
close loop.  It returns the unchanged `Logger` state (the source clears
nothing), the close calls made and the stderr output; it has no error
result because `Close` raises nothing. -/
def routerClose (r : Router) : Router × List Nat × List String :=
  if r.initialized then (r, closeLoop r.closers) else (r, [], [])

/-! ## The `Fatal*` bodies (logger.go)

Each `Fatal*` entry point is `l.output(sFatal, d, fmtcall)`, then
`l.Close()`, then `os.Exit(1)`; `os.Exit` does not return, so the trace
of one call ends at the exit event.
-/

/-- A top-level event of a `Fatal*` call. -/
inductive FEv
  | record (s : Severity) (text : String)
  | closeCall
  | exitCall (code : Nat)
deriving DecidableEq, Repr

/-- The record event emitted by `l.output(s, d, txt)`: one record on the
severity-`s` sink, made of the severity tag, the date/time/source
header, and the text. -/
def outputEv (s : Severity) (header txt : String) : List FEv :=
  [.record s (tagOf s ++ header ++ txt)]

/-- `Logger.Fatal`: `output(sFatal, 0, fmt.Sprint(v...))`, `Close()`,
`os.Exit(1)`. -/
def fatalGo (header : String) (v : List GoVal) : List FEv :=
  outputEv .sFatal header (goSprint v) ++ [.closeCall] ++ [.exitCall 1]

/-- `Logger.FatalDepth`: same as `Fatal` with an explicit call depth,
which only shifts the source-location header. -/
def fatalDepthGo (_depth : Nat) (header : String) (v : List GoVal) : List FEv :=
  outputEv .sFatal header (goSprint v) ++ [.closeCall] ++ [.exitCall 1]

/-- `Logger.Fatalln`: `output(sFatal, 0, fmt.Sprintln(v...))`,
`Close()`, `os.Exit(1)`. -/
def fatallnGo (header : String) (v : List GoVal) : List FEv :=
  outputEv .sFatal header (goSprintln v) ++ [.closeCall] ++ [.exitCall 1]

/-- `Logger.Fatalf`: `output(sFatal, 0, fmt.Sprintf(format, v...))`,
`Close()`, `os.Exit(1)`. -/
def fatalfGo (header format : String) (v : List GoVal) : List FEv :=
  outputEv .sFatal header (goSprintf format v) ++ [.closeCall] ++ [.exitCall 1]

/-- The record text carries the `FATAL: ` tag and contains the message:
it factors as the tag followed by a remainder, and the message occurs in
it as a substring. -/
def taggedFatalContaining (r msg : String) : Prop :=
  (∃ rest, r.data = tagFatal.data ++ rest) ∧ (∃ a b, r.data = a ++ msg.data ++ b)

/-! ## `Init` and the process-wide default logger (logger.go)

`initialize` installs a bootstrap `defaultLogger` whose `initialized`
flag is false.  `Init` builds a fresh logger `l` with
`l.initialized = true`, then, under `logLock`, installs `&l` as
`defaultLogger` only when `!defaultLogger.initialized`, and always
returns `&l`.
-/

/-- The part of a `Logger` that `Init`'s check-and-set reads, plus an
identity so distinct generated loggers are distinguishable. -/
structure DLogger where
  initialized : Bool
  id : Nat
deriving DecidableEq, Repr

/-- Process-wide state: the current `defaultLogger` and a supply of
fresh identities for the loggers `Init` generates. -/
structure GState where
  defaultLogger : DLogger
  nextId : Nat
deriving DecidableEq, Repr

/-- State right after `initialize()`: the bootstrap `defaultLogger` has
`initialized = false` (the zero value of the field). -/
def bootG : GState := ⟨⟨false, 0⟩, 1⟩

/-- One `Init` call: build a fresh logger with `initialized = true`,
install it as the default only when the current default is not
initialized, and return it. -/
def initCall (g : GState) : GState × DLogger :=
  let l : DLogger := ⟨true, g.nextId⟩
  let d := if g.defaultLogger.initialized then g.defaultLogger else l
  (⟨d, g.nextId + 1⟩, l)

/-- Process state after `n` further `Init` calls. -/
def runInits (g : GState) : Nat → GState
  | 0 => g
  | n + 1 => runInits (initCall g).1 n

/-! ## `Rinfof` (the sudachen variant file)

The source body is: `t := fmt.Sprintf(a, b...)`, then
`defaultLogger.output(sInfo, 0, t)`, then `internal.Info(a)`.
-/

/-- `Rinfof(a, b...)`: the pair of texts it hands on, first the text
given to the local `output` call, second the text given to
`internal.Info` for remote delivery.  The source formats `t` for the
local side but passes the unformatted `a` to `internal.Info`. -/
def rinfof (a : String) (b : List GoVal) : String × String :=
  let t := goSprintf a b
  (t, a)

/-! ## Theorems -/

theorem writeCount_cons_write (p : String) (es : List TEv) :
    writeCount (.write p :: es) = writeCount es + 1 := by
  simp [writeCount, List.filter]

theorem writeCount_cons_finish (ok : Bool) (es : List TEv) :
    writeCount (.finish ok :: es) = writeCount es := by
  simp [writeCount, List.filter]

theorem finishCount_cons_write (p : String) (es : List TEv) :
    finishCount (.write p :: es) = finishCount es := by
  simp [finishCount, List.filter]

theorem finishCount_cons_finish (ok : Bool) (es : List TEv) :
    finishCount (.finish ok :: es) = finishCount es + 1 := by
  simp [finishCount, List.filter]

/-- While connected, the tracker counter after any history equals the
starting value plus the writes seen minus the deliveries finished: each
remote write adds exactly one, each finished goroutine removes exactly
one, whatever its capture outcome. -/
theorem trackerRun_counter (es : List TEv) : ∀ c : Int,
    (trackerRun ⟨true, c⟩ es).counter = c + writeCount es - finishCount es := by
  induction es with
  | nil =>
    intro c
    simp [trackerRun, writeCount, finishCount]
  | cons e es ih =>
    intro c
    cases e with
    | write p =>
      have hstep : trackerRun ⟨true, c⟩ (.write p :: es) = trackerRun ⟨true, c + 1⟩ es := by
        simp [trackerRun, trackerStep, snioWriteInternal]
      rw [hstep, ih (c + 1), writeCount_cons_write, finishCount_cons_write]
      push_cast
      ring
    | finish ok =>
      have hstep : trackerRun ⟨true, c⟩ (.finish ok :: es) = trackerRun ⟨true, c - 1⟩ es := by
        simp [trackerRun, trackerStep, deliveryFinish]
      rw [hstep, ih (c - 1), writeCount_cons_finish, finishCount_cons_finish]
      push_cast
      ring

/-- C1: while connected, every remote write increments the wait-group
counter and spawns one delivery goroutine whose body reaches `wg.Done()`
exactly once on every outcome of the capture; hence over any history in
which each spawned delivery finishes exactly once — that is, one finish
event per write event, which is what `wait()` returning means — the
counter ends at exactly 0: no leaks, no double-decrements. -/
theorem c1_tracker_leak_free (es : List TEv) (h : writeCount es = finishCount es) :
    (∀ ok, (sentryGoroutine ok).count RAct.fin = 1) ∧
    (trackerRun ⟨true, 0⟩ es).counter = 0 := by
  constructor
  · intro ok
    cases ok <;> rfl
  · rw [trackerRun_counter es 0, h]
    ring

/-- Concrete run for C1: two connected writes interleaved with the
completion of both deliveries, one successful and one failed; the
counter returns to 0. -/
theorem c1_tracker_leak_free_witness :
    writeCount [TEv.write "a", TEv.finish true, TEv.write "b", TEv.finish false] =
      finishCount [TEv.write "a", TEv.finish true, TEv.write "b", TEv.finish false] ∧
    ((∀ ok, (sentryGoroutine ok).count RAct.fin = 1) ∧
      (trackerRun ⟨true, 0⟩
        [TEv.write "a", TEv.finish true, TEv.write "b", TEv.finish false]).counter = 0) :=
  ⟨by decide,
    c1_tracker_leak_free [TEv.write "a", TEv.finish true, TEv.write "b", TEv.finish false]
      (by decide)⟩

/-- C2 counterexample: with the sentry client connected, an Info-level
`Logger.output` call performs the remote delivery while `logLock` is
held — the delivery action is among the lock-held actions of the call,
contradicting the claim that remote delivery never executes under the
lock and is instead scheduled on a background task. -/
theorem c2_counterexample :
    OAct.remoteDeliver .sInfo ∈ outputLockHeldActions true false false .sInfo "" "x" := by
  decide

/-- C2 amended: for every logging call, when the sentry client is
connected the remote delivery is performed synchronously in the caller,
inside the `io.MultiWriter` write and therefore while `logLock` is
held; it is not scheduled asynchronously on this path. -/
theorem c2_amended (verbose hasLogFile : Bool) (s : Severity) (header txt : String) :
    OAct.remoteDeliver s ∈ outputLockHeldActions true verbose hasLogFile s header txt := by
  cases verbose <;> cases hasLogFile <;> cases s <;>
    simp [outputLockHeldActions, makeLogWriters, multiWriterWrite, writerWrite,
      snioWriteActions] <;>
    split <;> simp

/-- C3 counterexample: on a Router that was initialized with one
registered closer, the second `Close()` call closes that closer again —
its list of close calls is not empty, so the second call is not a
side-effect-free no-op. -/
theorem c3_counterexample :
    (routerClose (routerClose ⟨true, [⟨0, none⟩]⟩).1).2.1 ≠ [] := by
  decide

/-- C3 amended: `Close()` leaves the Router state unchanged — nothing
records that a close happened, so the Router is not put into a closed
state — and therefore a second `Close()` repeats exactly the close
calls and error reports of the first: on an initialized Router every
registered closer is closed again. -/
theorem c3_amended (r : Router) :
    (routerClose r).1 = r ∧ routerClose (routerClose r).1 = routerClose r := by
  have h : (routerClose r).1 = r := by
    unfold routerClose
    split <;> rfl
  exact ⟨h, by rw [h]⟩

theorem taggedFatalContaining_build (header msg : String) :
    taggedFatalContaining (tagOf .sFatal ++ header ++ msg) msg := by
  refine ⟨⟨header.data ++ msg.data, ?_⟩, tagFatal.data ++ header.data, [], ?_⟩ <;>
    simp [tagOf, String.data_append]

/-- C4: each of the four Fatal-level entry points emits exactly one
record, on the Fatal sink, whose text starts with the `FATAL: ` tag and
contains the formatted message; it then calls `Close()` and finally
`os.Exit(1)` — exit status 1, which is non-zero — and the trace ends at
the exit event, embedding that the call never returns. -/
theorem c4_fatal_path (header format : String) (d : Nat) (v : List GoVal) :
    (∃ r, fatalGo header v = [.record .sFatal r, .closeCall, .exitCall 1] ∧
      taggedFatalContaining r (goSprint v)) ∧
    (∃ r, fatalDepthGo d header v = [.record .sFatal r, .closeCall, .exitCall 1] ∧
      taggedFatalContaining r (goSprint v)) ∧
    (∃ r, fatallnGo header v = [.record .sFatal r, .closeCall, .exitCall 1] ∧
      taggedFatalContaining r (goSprintln v)) ∧
    (∃ r, fatalfGo header format v = [.record .sFatal r, .closeCall, .exitCall 1] ∧
      taggedFatalContaining r (goSprintf format v)) ∧
    (1 : Nat) ≠ 0 := by
  refine ⟨⟨_, rfl, ?_⟩, ⟨_, rfl, ?_⟩, ⟨_, rfl, ?_⟩, ⟨_, rfl, ?_⟩, one_ne_zero⟩ <;>
    exact taggedFatalContaining_build header _

/-- C5: when `connect` was never called, both remote sinks make the
write a silent success: the internal tracker's `snio.Write` leaves the
state (and so the in-flight counter) unchanged, spawns no delivery
goroutine and returns `(0, nil)` immediately, and the logger.go
`snio.Write` performs no action at all without a client. -/
theorem c5_disconnected_noop (s : TrackerState) (h : s.connected = false)
    (p : String) (lvl : Severity) :
    snioWriteInternal s p = ⟨s, [], 0, none⟩ ∧
    snioWriteActions false lvl = [] := by
  exact ⟨by simp [snioWriteInternal, h], rfl⟩

/-- Concrete run for C5: a disconnected write of `"x"` changes nothing
and reports success. -/
theorem c5_disconnected_noop_witness :
    (⟨false, 0⟩ : TrackerState).connected = false ∧
    (snioWriteInternal ⟨false, 0⟩ "x" = ⟨⟨false, 0⟩, [], 0, none⟩ ∧
      snioWriteActions false .sInfo = []) :=
  ⟨rfl, c5_disconnected_noop ⟨false, 0⟩ rfl "x" .sInfo⟩

theorem closeLoop_calls (cs : List Closer) :
    (closeLoop cs).1 = cs.map (fun c => c.id) := by
  induction cs with
  | nil => rfl
  | cons c cs ih => simp [closeLoop, ih]

theorem closeLoop_reports (cs : List Closer) :
    (closeLoop cs).2 = cs.filterMap
      (fun c => c.closeErr.map (fun e => failedCloseMsg c.id e)) := by
  induction cs with
  | nil => rfl
  | cons c cs ih =>
    cases h : c.closeErr <;> simp [closeLoop, ih, h]

/-- C6: `Close` is a no-op on a never-initialized Router; otherwise it
calls close on every entry of the closer registry, in registration
order, whatever each closer's outcome is — a failing closer only adds a
stderr report and stops nothing — and `Close` itself returns without an
error result (the model's type has none to return). -/
theorem c6_close_registry (r : Router) :
    (r.initialized = false → routerClose r = (r, [], [])) ∧
    (r.initialized = true →
      (routerClose r).2.1 = r.closers.map (fun c => c.id) ∧
      (routerClose r).2.2 = r.closers.filterMap
        (fun c => c.closeErr.map (fun e => failedCloseMsg c.id e))) := by
  constructor
  · intro h
    simp [routerClose, h]
  · intro h
    simp [routerClose, h, closeLoop_calls, closeLoop_reports]

/-- Concrete run for C6: a registry of three closers whose middle entry
fails is still closed entirely and in order, with one stderr report. -/
theorem c6_close_registry_witness :
    (⟨true, [⟨0, none⟩, ⟨1, some "boom"⟩, ⟨2, none⟩]⟩ : Router).initialized = true ∧
    ((routerClose ⟨true, [⟨0, none⟩, ⟨1, some "boom"⟩, ⟨2, none⟩]⟩).2.1 =
        [0, 1, 2] ∧
      (routerClose ⟨true, [⟨0, none⟩, ⟨1, some "boom"⟩, ⟨2, none⟩]⟩).2.2 =
        [failedCloseMsg 1 "boom"]) :=
  ⟨rfl, (c6_close_registry ⟨true, [⟨0, none⟩, ⟨1, some "boom"⟩, ⟨2, none⟩]⟩).2 rfl⟩

/-- Once the default logger is initialized, further `Init` calls leave
it untouched. -/
theorem runInits_default (n : Nat) : ∀ g : GState,
    g.defaultLogger.initialized = true →
    (runInits g n).defaultLogger = g.defaultLogger := by
  induction n with
  | zero =>
    intro g _
    rfl
  | succ n ih =>
    intro g h
    have hkeep : (initCall g).1.defaultLogger = g.defaultLogger := by
      simp [initCall, h]
    have : (runInits g (n + 1)).defaultLogger = (runInits (initCall g).1 n).defaultLogger := rfl
    rw [this, ih _ (by rw [hkeep]; exact h), hkeep]

/-- C7: from the bootstrap state (whose default logger has the
`initialized` flag unset) the first `Init` installs its generated
logger as the process-wide default; after any number of further `Init`
calls the default is still that first logger, and every `Init` call on
an already-initialized default leaves the default unchanged while
returning its own freshly generated, initialized logger. -/
theorem c7_default_replaced_once (n : Nat) :
    (initCall bootG).1.defaultLogger = (initCall bootG).2 ∧
    (runInits (initCall bootG).1 n).defaultLogger = (initCall bootG).2 ∧
    (∀ g : GState, g.defaultLogger.initialized = true →
      (initCall g).1.defaultLogger = g.defaultLogger ∧
      (initCall g).2 = ⟨true, g.nextId⟩) := by
  refine ⟨by decide, ?_, ?_⟩
  · rw [runInits_default n (initCall bootG).1 rfl]
    decide
  · intro g h
    exact ⟨by simp [initCall, h], rfl⟩

/-- Concrete run for C7: after the first `Init` and two more, the
default is still the logger generated by the first call; an `Init` on
an initialized default returns a fresh logger without replacing it. -/
theorem c7_default_replaced_once_witness :
    (runInits (initCall bootG).1 2).defaultLogger = (initCall bootG).2 ∧
    ((⟨⟨true, 1⟩, 5⟩ : GState).defaultLogger.initialized = true ∧
      (initCall ⟨⟨true, 1⟩, 5⟩).1.defaultLogger = (⟨true, 1⟩ : DLogger) ∧
      (initCall ⟨⟨true, 1⟩, 5⟩).2 = ⟨true, 5⟩) :=
  ⟨(c7_default_replaced_once 2).2.1,
    rfl,
    ((c7_default_replaced_once 0).2.2 ⟨⟨true, 1⟩, 5⟩ rfl).1,
    ((c7_default_replaced_once 0).2.2 ⟨⟨true, 1⟩, 5⟩ rfl).2⟩

/-- C8: evaluating the `Rinfof` body at the call `Rinfof("x=%d", 7)`
shows the divergence in the source: the local sink is handed the
formatted text `"x=7"` but `internal.Info` — the remote side — is
handed the raw format string `"x=%d"`, not the `fmt.Sprintf` result the
claim (and the sibling variant of the same file) prescribes. -/
theorem c8_rinfof_drops_formatting :
    rinfof "x=%d" [GoVal.vint 7] = ("x=7", "x=%d") ∧
    (rinfof "x=%d" [GoVal.vint 7]).2 ≠ goSprintf "x=%d" [GoVal.vint 7] := by
  exact ⟨rfl, by decide⟩

theorem mwActs_sentry_only (client : Bool) (lvl : Severity) (record : String) :
    (multiWriterWrite client [.sentrySink lvl] record).1 =
      snioWriteActions client lvl := by
  simp only [multiWriterWrite, writerWrite]
  split <;> simp

theorem mwActs_cons_logFile (client : Bool) (ws : List Writer) (record : String) :
    (multiWriterWrite client (.logFile :: ws) record).1 =
      .localWrite .logFile record :: (multiWriterWrite client ws record).1 := by
  simp [multiWriterWrite, writerWrite]

theorem mwActs_cons_stdout (client : Bool) (ws : List Writer) (record : String) :
    (multiWriterWrite client (.stdout :: ws) record).1 =
      .localWrite .stdout record :: (multiWriterWrite client ws record).1 := by
  simp [multiWriterWrite, writerWrite]

theorem mwActs_info_noverbose (client : Bool) (record : String) :
    (multiWriterWrite client [.logFile, .sentrySink .sInfo] record).1 =
      .localWrite .logFile record :: snioWriteActions client .sInfo := by
  rw [mwActs_cons_logFile, mwActs_sentry_only]

theorem mwActs_info_verbose (client : Bool) (record : String) :
    (multiWriterWrite client [.logFile, .stdout, .sentrySink .sInfo] record).1 =
      .localWrite .logFile record :: .localWrite .stdout record ::
        snioWriteActions client .sInfo := by
  rw [mwActs_cons_logFile, mwActs_cons_stdout, mwActs_sentry_only]

/-- C9: for an `Init`-built logger with a non-nil log file, an
Info-level call with `verbose = false` writes its record to the log
file and writes nothing to standard output, while with `verbose = true`
the same record goes both to the log file and to standard output —
whether or not a sentry client is connected. -/
theorem c9_verbose_routing (client : Bool) (header txt : String) :
    (OAct.localWrite .logFile (tagInfo ++ header ++ txt) ∈
        outputLockHeldActions client false true .sInfo header txt ∧
      ∀ r, OAct.localWrite .stdout r ∉
        outputLockHeldActions client false true .sInfo header txt) ∧
    (OAct.localWrite .logFile (tagInfo ++ header ++ txt) ∈
        outputLockHeldActions client true true .sInfo header txt ∧
      OAct.localWrite .stdout (tagInfo ++ header ++ txt) ∈
        outputLockHeldActions client true true .sInfo header txt) := by
  have hw1 : makeLogWriters false true .sInfo = [.logFile, .sentrySink .sInfo] := by decide
  have hw2 : makeLogWriters true true .sInfo = [.logFile, .stdout, .sentrySink .sInfo] := by
    decide
  unfold outputLockHeldActions
  rw [hw1, hw2, mwActs_info_noverbose, mwActs_info_verbose]
  refine ⟨⟨List.mem_cons_self _ _, ?_⟩, List.mem_cons_self _ _,
    List.mem_cons_of_mem _ (List.mem_cons_self _ _)⟩
  intro r
  cases client <;> simp [snioWriteActions]

/-- C10: in every state — connected or not — the remote sink's `Write`
reports `(0, nil)`: the internal tracker variant and the logger.go
variant both return a zero count and no error; consequently an
`io.MultiWriter` holding the sentry sink compares the reported 0 with
the record length and fails with `ErrShortWrite` on every record of
non-zero length. -/
theorem c10_zero_count_short_write (s : TrackerState) (client : Bool) (lvl : Severity)
    (p record : String) (h : record.length ≠ 0) :
    ((snioWriteInternal s p).n = 0 ∧ (snioWriteInternal s p).err = none) ∧
    ((writerWrite client (.sentrySink lvl) record).2.1 = 0 ∧
      (writerWrite client (.sentrySink lvl) record).2.2 = none) ∧
    (multiWriterWrite client [.sentrySink lvl] record).2.2 = some .shortWrite := by
  refine ⟨⟨?_, ?_⟩, ⟨rfl, rfl⟩, ?_⟩
  · unfold snioWriteInternal
    split <;> rfl
  · unfold snioWriteInternal
    split <;> rfl
  · simp only [multiWriterWrite, writerWrite]
    rw [if_neg (fun hc => h hc.symm)]

/-- Concrete run for C10: a connected write of a one-byte record is
acknowledged with count 0 and no error, and the surrounding
`io.MultiWriter` turns that into a short-write failure. -/
theorem c10_zero_count_short_write_witness :
    ("x" : String).length ≠ 0 ∧
    ((((snioWriteInternal ⟨true, 0⟩ "x").n = 0 ∧
        (snioWriteInternal ⟨true, 0⟩ "x").err = none) ∧
      ((writerWrite true (.sentrySink .sError) "x").2.1 = 0 ∧
        (writerWrite true (.sentrySink .sError) "x").2.2 = none) ∧
      (multiWriterWrite true [.sentrySink .sError] "x").2.2 = some .shortWrite)) :=
  ⟨by decide, c10_zero_count_short_write ⟨true, 0⟩ true .sError "x" "x" (by decide)⟩

end LoggerModel
